import Mathlib

/-!
# Verification of the business-card backend (`app.py`)

A shallow embedding of the Flask HTTP backend in `app.py`: the database is an
explicit state value (lists of user, card and category rows), each request
handler is a pure function from a request value and a database state to a
response and a new database state, and the nondeterministic inputs of a
request (the freshly drawn UUID, the current timestamp, the external model's
answer) are passed as explicit arguments.

Modelling conventions, fixed once and used throughout:

* Python `str` values are Lean `String`s except where byte-level structure
  matters: passwords travel through `str.encode()` / `bytes.decode()` and
  `base64`, so a password is modelled by its UTF-8 byte sequence
  (`Bytes := List Nat`, each entry `< 256`); `str.encode` / `bytes.decode`
  become the identity embedding, which is faithful because UTF-8 encoding is
  injective and the program only ever compares passwords for equality.
  The base64 alphabet is likewise modelled at the byte (ASCII code) level.
* The text returned by the external model is a `List Char`, because the
  fence-stripping logic of `process_image_with_gemini` slices it positionally.
* JSON values appearing in card fields are modelled by `Val`
  (null / string / array-of-strings / other), enough to express the
  sentinel-normalisation logic, which only compares against `None`, `"None"`
  and `""`.
* `psycopg2` row sets are Lean lists in insertion order; `fetchone` is
  `List.find?`, `UPDATE ... WHERE` is a `List.map` guarded by the `WHERE`
  predicate, `cursor.rowcount` is `List.countP` of the `WHERE` predicate,
  and `ORDER BY x DESC` is `List.insertionSort` with the corresponding
  total preorder.
* `get_db_connection` failures (the 500 "Database connection failed" paths)
  and statement-level database exceptions are outside the model: the
  database is always reachable.  The ad-hoc `ALTER TABLE` migration inside
  `delete_card` is a no-op here because the modelled schema always has the
  `status` column (it is `Option Int`, `none` standing for SQL NULL).
* Python truthiness on optional request strings: absent (`none`) and empty
  values are falsy.
-/

/-- Byte strings (Python `bytes`): lists of naturals, well-formed when `< 256`. -/
abbrev Bytes := List Nat

/-- Python truthiness of an optional string field of a JSON request body
(`not x` is true exactly when the key is absent or the value is `""`). -/
def truthy : Option String → Bool
  | none => false
  | some s => s ≠ ""

/-- Python truthiness of an optional byte-string field. -/
def truthyB : Option Bytes → Bool
  | none => false
  | some b => b ≠ []

/-- `startsWithL pat s`: `s` begins with `pat` (Python `str.startswith`). -/
def startsWithL : List Char → List Char → Bool
  | [], _ => true
  | _ :: _, [] => false
  | p :: ps, c :: cs => p = c && startsWithL ps cs

/-- Worker for `replaceAll`, structurally recursive on a fuel bound so that
it reduces inside the kernel; the fuel (initially the string's length, an
upper bound on the number of steps, each of which consumes at least one
character) is never exhausted, so the fallback branch is dead. -/
def replaceFuel (pat : List Char) : Nat → List Char → List Char
  | _, [] => []
  | 0, s => s
  | fuel + 1, c :: rest =>
    if pat.length ≠ 0 ∧ startsWithL pat (c :: rest) then
      replaceFuel pat fuel ((c :: rest).drop pat.length)
    else
      c :: replaceFuel pat fuel rest

/-- Python `str.replace(pat, '')` for a non-empty `pat`: remove every
left-to-right non-overlapping occurrence of `pat`. -/
def replaceAll (pat : List Char) (s : List Char) : List Char :=
  replaceFuel pat s.length s

/-- Python `str.strip(chars)`: drop characters satisfying `p` from both ends. -/
def stripEnds (p : Char → Bool) (s : List Char) : List Char :=
  ((s.dropWhile p).reverse.dropWhile p).reverse

/-- The brace characters stripped by `uuid.UUID`'s `strip('{}')`. -/
def isBraceChar (c : Char) : Bool := c = Char.ofNat 123 || c = Char.ofNat 125

/-- Hexadecimal digit as accepted by Python `int(_, 16)`. -/
def isHexDig (c : Char) : Bool :=
  (48 ≤ c.toNat && c.toNat ≤ 57) || (97 ≤ c.toNat && c.toNat ≤ 102) ||
    (65 ≤ c.toNat && c.toNat ≤ 70)

/-- Model of `uuid.UUID(s)` succeeding, following CPython's constructor:
remove `urn:` then `uuid:` occurrences, strip surrounding braces, remove
dashes, and require exactly 32 hexadecimal digits.  (The exotic leniencies of
`int(_, 16)` — underscore separators and an `0x` prefix — cannot survive the
32-character length check together with hex-digit content in any input this
backend sees, and are not modelled.) -/
def isValidUUID (s : String) : Bool :=
  let t1 := replaceAll ("uuid:").data (replaceAll ("urn:").data s.data)
  let t2 := replaceAll [Char.ofNat 45] (stripEnds isBraceChar t1)
  t2.length = 32 && t2.all isHexDig

/-- `ALLOWED_EXTENSIONS` from `app.py`. -/
def ALLOWED_EXTENSIONS : List String := ["png", "jpg", "jpeg", "gif", "bmp", "webp"]

/-- The part of a filename after the last dot (`filename.rsplit('.', 1)[1]`
when a dot is present). -/
def extAfterLastDot (l : List Char) : List Char :=
  (l.reverse.takeWhile (fun c => c ≠ Char.ofNat 46)).reverse

/-- `allowed_file` from `app.py`: the name contains a dot and the lowercased
extension after the last dot is in `ALLOWED_EXTENSIONS`. -/
def allowed_file (filename : String) : Bool :=
  filename.data.contains (Char.ofNat 46) &&
    ALLOWED_EXTENSIONS.contains (String.mk ((extAfterLastDot filename.data).map Char.toLower))

/-! ## base64 (the `base64.b64encode` / `b64decode` pair used for passwords)

Encoded strings are modelled as their ASCII byte sequences; `61` is `'='`. -/

/-- The standard base64 alphabet, as ASCII codes: sextet value to character. -/
def sChar (n : Nat) : Nat :=
  if n < 26 then 65 + n
  else if n < 52 then 71 + n
  else if n < 62 then n - 4
  else if n = 62 then 43
  else 47

/-- Inverse alphabet lookup: ASCII code to sextet value, `none` outside the
alphabet. -/
def sVal (c : Nat) : Option Nat :=
  if 65 ≤ c ∧ c ≤ 90 then some (c - 65)
  else if 97 ≤ c ∧ c ≤ 122 then some (c - 71)
  else if 48 ≤ c ∧ c ≤ 57 then some (c + 4)
  else if c = 43 then some 62
  else if c = 47 then some 63
  else none

/-- `base64.b64encode` on a byte string. -/
def b64encode : Bytes → Bytes
  | [] => []
  | [a] => [sChar (a / 4), sChar (a % 4 * 16), 61, 61]
  | [a, b] => [sChar (a / 4), sChar (a % 4 * 16 + b / 16), sChar (b % 16 * 4), 61]
  | a :: b :: c :: rest =>
    sChar (a / 4) :: sChar (a % 4 * 16 + b / 16) :: sChar (b % 16 * 4 + c / 64) ::
      sChar (c % 64) :: b64encode rest

/-- `base64.b64decode` on well-formed input (grouped in fours, padding only at
the end); `none` models the `binascii.Error` / decode failure path.  Inputs
that CPython would treat more leniently (stray non-alphabet bytes, padding in
the middle) are rejected — the backend only ever decodes its own `b64encode`
output, on which the two agree. -/
def b64decode : Bytes → Option Bytes
  | [] => some []
  | w :: x :: y :: z :: rest =>
    match sVal w, sVal x with
    | some a, some b =>
      if y = 61 then
        if z = 61 ∧ rest = [] then some [a * 4 + b / 16] else none
      else
        match sVal y with
        | some c =>
          if z = 61 then
            if rest = [] then some [a * 4 + b / 16, b % 16 * 16 + c / 4] else none
          else
            match sVal z with
            | some d =>
              (b64decode rest).map
                (fun t => (a * 4 + b / 16) :: (b % 16 * 16 + c / 4) :: (c % 4 * 64 + d) :: t)
            | none => none
        | none => none
    | _, _ => none
  | _ => none

theorem sVal_sChar : ∀ n, n < 64 → sVal (sChar n) = some n := by decide

theorem sChar_ne_61 : ∀ n, n < 64 → sChar n ≠ 61 := by decide

/-- Decoding inverts encoding on genuine byte strings. -/
theorem b64decode_b64encode : ∀ bs : Bytes, (∀ b ∈ bs, b < 256) →
    b64decode (b64encode bs) = some bs
  | [], _ => rfl
  | [a], h => by
    have ha : a < 256 := h a (by simp)
    have h1 : a / 4 < 64 := by omega
    have h2 : a % 4 * 16 < 64 := by omega
    simp only [b64encode, b64decode, sVal_sChar _ h1, sVal_sChar _ h2]
    norm_num
    omega
  | [a, b], h => by
    have ha : a < 256 := h a (by simp)
    have hb : b < 256 := h b (by simp)
    have h1 : a / 4 < 64 := by omega
    have h2 : a % 4 * 16 + b / 16 < 64 := by omega
    have h3 : b % 16 * 4 < 64 := by omega
    simp only [b64encode, b64decode, sVal_sChar _ h1, sVal_sChar _ h2, sVal_sChar _ h3,
      sChar_ne_61 _ h3, if_neg (sChar_ne_61 _ h3)]
    norm_num
    constructor
    · omega
    · omega
  | a :: b :: c :: rest, h => by
    have ha : a < 256 := h a (by simp)
    have hb : b < 256 := h b (by simp)
    have hc : c < 256 := h c (by simp)
    have ih := b64decode_b64encode rest (fun x hx => h x (by simp at hx ⊢; tauto))
    have h1 : a / 4 < 64 := by omega
    have h2 : a % 4 * 16 + b / 16 < 64 := by omega
    have h3 : b % 16 * 4 + c / 64 < 64 := by omega
    have h4 : c % 64 < 64 := by omega
    simp only [b64encode, b64decode, sVal_sChar _ h1, sVal_sChar _ h2, sVal_sChar _ h3,
      sVal_sChar _ h4, if_neg (sChar_ne_61 _ h3), if_neg (sChar_ne_61 _ h4)]
    rw [ih]
    simp only [Option.map_some']
    congr 1
    have e1 : a / 4 * 4 + (a % 4 * 16 + b / 16) / 16 = a := by omega
    have e2 : (a % 4 * 16 + b / 16) % 16 * 16 + (b % 16 * 4 + c / 64) / 4 = b := by omega
    have e3 : (b % 16 * 4 + c / 64) % 4 * 64 + c % 64 = c := by omega
    rw [e1, e2, e3]

/-! ## Data model -/

/-- A JSON value as it can appear in a card field: SQL NULL / Python `None`,
a string, an array of strings (the `tags` column), or some other JSON value
(opaque; the handlers only ever compare fields against `None`, `"None"` and
`""`). -/
inductive Val where
  | null
  | str (s : String)
  | arr (xs : List String)
  | other (n : Nat)
deriving DecidableEq

/-- A row of the `users` table (`register_user`'s INSERT lists the columns).
The stored `password` is the base64-encoded byte string. -/
structure User where
  user_id : String
  name : String
  email : Option String
  phone : String
  password : Bytes
  account_type : String
  status : String
  created_at : Nat
deriving DecidableEq

/-- A row of the `cards` table.  `status` is `Option Int` because the column
is nullable (SQL NULL is `none`); `updated_at` is absent until a mutation. -/
structure Card where
  card_id : String
  user_id : String
  name : Val
  job_title : Val
  company : Val
  phone : Val
  email : Val
  website : Val
  address : Val
  linkedin : Val
  twitter : Val
  facebook : Val
  instagram : Val
  additional_info : Val
  tags : Val
  card_type : String
  status : Option Int
  created_at : Nat
  updated_at : Option Nat
deriving DecidableEq

/-- A row of the `categories` table. -/
structure Category where
  user_id : String
  category_name : String
  status : Int
deriving DecidableEq

/-- The database state: the three tables, rows in insertion order. -/
structure DB where
  users : List User
  cards : List Card
  categories : List Category
deriving DecidableEq

/-- The nested `social_media` object of an extraction result. -/
structure SocialMedia where
  linkedin : Val
  twitter : Val
  facebook : Val
  instagram : Val
deriving DecidableEq

/-- A parsed extraction result (the JSON dictionary returned by the model).
Absent keys are `Val.null` (Python `dict.get(_, None)`); `social_media` is
`none` when the key is absent or its value is not a dictionary (both make
every nested lookup `None` in the source); `hasError` records whether the
dictionary contains an `error` key (`"error" in extracted_info`). -/
structure Extraction where
  name : Val
  job_title : Val
  company : Val
  phone : Val
  email : Val
  website : Val
  address : Val
  social_media : Option SocialMedia
  additional_info : Val
  hasError : Bool
deriving DecidableEq

/-- `social_media.get('linkedin', None)` seen from the extraction result. -/
def smLinkedin (e : Extraction) : Val :=
  match e.social_media with
  | some s => s.linkedin
  | none => Val.null

/-- `social_media.get('twitter', None)` seen from the extraction result. -/
def smTwitter (e : Extraction) : Val :=
  match e.social_media with
  | some s => s.twitter
  | none => Val.null

/-- `social_media.get('facebook', None)` seen from the extraction result. -/
def smFacebook (e : Extraction) : Val :=
  match e.social_media with
  | some s => s.facebook
  | none => Val.null

/-- `social_media.get('instagram', None)` seen from the extraction result. -/
def smInstagram (e : Extraction) : Val :=
  match e.social_media with
  | some s => s.instagram
  | none => Val.null

/-- One entry of the `cards` list returned by `GET /cards/<user_id>`:
the dictionary built in `get_user_cards` (social media keys flattened;
`status` is `card[16] if card[16] is not None else 0`). -/
structure CardOut where
  card_id : String
  user_id : String
  name : Val
  job_title : Val
  company : Val
  phone : Val
  email : Val
  website : Val
  address : Val
  linkedin : Val
  twitter : Val
  facebook : Val
  instagram : Val
  additional_info : Val
  tags : Val
  card_type : String
  status : Int
  created_at : Nat
deriving DecidableEq

/-- The result of `process_image_with_gemini`: either the parsed extraction
dictionary, or one of the two error dictionaries
(`{"error": ..., "raw_response": ...}` with `raw_response` only on the
JSON-decode failure path). -/
inductive GeminiRet where
  | parsed (e : Extraction)
  | errDict (msg : String) (raw_response : Option (List Char))
deriving DecidableEq

/-- Response bodies.  Error-message strings are those of the source; the
body of the invalid-update-fields 400 is a dedicated constructor because its
text interpolates a Python set whose iteration order is unspecified. -/
inductive Body where
  | err (msg : String)
  | errInvalidFields
  | registerOk (user_id : String) (name : String)
  | loginOk (user_id : String) (name : String)
  | extractOk (card_id : String) (user_id : String) (data : Extraction)
  | extractFail (details : GeminiRet)
  | cardsOk (user_id : String) (cards : List CardOut) (total_cards : Nat)
  | updateOk (updated_fields : List String) (card : Card)
  | deleteOk (card_id : String)
deriving DecidableEq

/-- An HTTP response: status code and JSON body. -/
structure Resp where
  status : Nat
  body : Body
deriving DecidableEq

/-! ## Request bodies (JSON / form payloads), optional keys as `Option` -/

structure RegisterReq where
  user_name : Option String
  phone : Option String
  password : Option Bytes
  email : Option String
deriving DecidableEq

structure LoginReq where
  phone : Option String
  password : Option Bytes
deriving DecidableEq

/-- The `/extract-card` multipart request together with the two facts the
handler observes about the uploaded bytes: `hasImage` is
`'image' in request.files`, `decodeOk` is whether `PIL.Image.open` (and the
RGB conversion) succeeds on them. -/
structure ExtractReq where
  hasImage : Bool
  user_id : Option String
  filename : String
  decodeOk : Bool
deriving DecidableEq

/-- `updates` is `none` when the key is absent (Python default `{}`);
a present dictionary is an association list in key order. -/
structure UpdateReq where
  user_id : Option String
  card_id : Option String
  updates : Option (List (String × Val))
deriving DecidableEq

structure DeleteReq where
  card_id : Option String
deriving DecidableEq

/-! ## Field normalisation and dynamic update machinery -/

/-- `clean_none_values` as defined inside `extract_business_card`
(line 216): `None if value == "None" or value == "" else value`.
Python `None` compares unequal to both strings, so `Val.null` passes
through unchanged. -/
def cleanNoneExtract (v : Val) : Val :=
  if v = Val.str "None" ∨ v = Val.str "" then Val.null else v

/-- `clean_none_values` as defined inside `update_card_details`
(line 577): additionally maps `None` itself to `None`. -/
def cleanNoneUpdate (v : Val) : Val :=
  if v = Val.null ∨ v = Val.str "None" ∨ v = Val.str "" then Val.null else v

/-- The `allowed_fields` set of `update_card_details` (line 545). -/
def allowedFields : List String :=
  ["name", "job_title", "company", "phone", "email", "website",
   "address", "linkedin", "twitter", "facebook", "instagram",
   "additional_info", "tags"]

/-- One `SET {field} = %s` assignment of the dynamically built UPDATE: write
the value into the named column.  The handler only ever reaches this with a
key from `allowedFields`, so only those thirteen columns are assignable; the
catch-all branch is dead code. -/
def setField (c : Card) (k : String) (v : Val) : Card :=
  if k = "name" then { c with name := v }
  else if k = "job_title" then { c with job_title := v }
  else if k = "company" then { c with company := v }
  else if k = "phone" then { c with phone := v }
  else if k = "email" then { c with email := v }
  else if k = "website" then { c with website := v }
  else if k = "address" then { c with address := v }
  else if k = "linkedin" then { c with linkedin := v }
  else if k = "twitter" then { c with twitter := v }
  else if k = "facebook" then { c with facebook := v }
  else if k = "instagram" then { c with instagram := v }
  else if k = "additional_info" then { c with additional_info := v }
  else if k = "tags" then { c with tags := v }
  else c

/-- Read the column written by `setField` (for stating theorems). -/
def getField (c : Card) (k : String) : Val :=
  if k = "name" then c.name
  else if k = "job_title" then c.job_title
  else if k = "company" then c.company
  else if k = "phone" then c.phone
  else if k = "email" then c.email
  else if k = "website" then c.website
  else if k = "address" then c.address
  else if k = "linkedin" then c.linkedin
  else if k = "twitter" then c.twitter
  else if k = "facebook" then c.facebook
  else if k = "instagram" then c.instagram
  else if k = "additional_info" then c.additional_info
  else if k = "tags" then c.tags
  else Val.null

/-- The effect of the dynamically built UPDATE statement on one matching row:
every requested assignment `field = clean_none_values(value)` in order,
plus the always-appended `updated_at = now`. -/
def applyUpdates (c : Card) (upds : List (String × Val)) (now : Nat) : Card :=
  { upds.foldl (fun acc kv => setField acc kv.1 (cleanNoneUpdate kv.2)) c with
      updated_at := some now }

/-- The dictionary `get_user_cards` builds from a fetched row: `status`
becomes `0` when the column is NULL, falsy `tags` become `[]`. -/
def toCardOut (c : Card) : CardOut :=
  { card_id := c.card_id
    user_id := c.user_id
    name := c.name
    job_title := c.job_title
    company := c.company
    phone := c.phone
    email := c.email
    website := c.website
    address := c.address
    linkedin := c.linkedin
    twitter := c.twitter
    facebook := c.facebook
    instagram := c.instagram
    additional_info := c.additional_info
    tags := if c.tags = Val.null ∨ c.tags = Val.str "" ∨ c.tags = Val.arr []
            then Val.arr [] else c.tags
    card_type := c.card_type
    status := c.status.getD 0
    created_at := c.created_at }

/-- `ORDER BY created_at DESC`: newer (larger timestamp) rows first. -/
def createdDesc (a b : Card) : Prop := b.created_at ≤ a.created_at

instance : DecidableRel createdDesc := fun a b =>
  inferInstanceAs (Decidable (b.created_at ≤ a.created_at))

instance : IsTotal Card createdDesc :=
  ⟨fun a b => le_total b.created_at a.created_at⟩

instance : IsTrans Card createdDesc :=
  ⟨fun _ _ _ h1 h2 => le_trans h2 h1⟩

/-! ## The extraction client (`process_image_with_gemini`) -/

/-- ASCII whitespace stripped by Python `str.strip()` (the further Unicode
whitespace code points never occur in this backend's data). -/
def pyIsSpace (c : Char) : Bool :=
  c = ' ' || c = '\t' || c = '\n' || c = '\r' || c = Char.ofNat 11 || c = Char.ofNat 12

/-- Python `str.strip()`. -/
def pstrip (l : List Char) : List Char := stripEnds pyIsSpace l

/-- The fence-stripping done on the model's reply (lines 101-105):
strip whitespace; if the text starts with ` ```json ` take the slice
`[7:-3]` and strip again; otherwise if it starts with ` ``` ` take `[3:-3]`
and strip again. -/
def stripFence (text : List Char) : List Char :=
  let t := pstrip text
  if startsWithL ("```json").data t then pstrip ((t.drop 7).take (t.length - 3 - 7))
  else if startsWithL ("```").data t then pstrip ((t.drop 3).take (t.length - 3 - 3))
  else t

/-- The outcome of the `model.generate_content` call: a reply text, or an
exception with message `msg` (network failure, model failure, ...). -/
inductive GeminiOutcome where
  | ok (text : List Char)
  | fail (msg : String)
deriving DecidableEq

/-- `process_image_with_gemini`, parameterised by the JSON parser
(`json.loads` restricted to extraction dictionaries; `none` models
`json.JSONDecodeError`).  On parse failure the raw (unstripped) reply is
returned under `raw_response`; on a transport/model exception the error
dictionary carries the exception message. -/
def process_image_with_gemini (parse : List Char → Option Extraction) :
    GeminiOutcome → GeminiRet
  | .fail msg => .errDict ("Error processing image with Gemini: " ++ msg) none
  | .ok text =>
    match parse (stripFence text) with
    | some e => .parsed e
    | none => .errDict "Failed to parse JSON response" (some text)

/-- `"error" in extracted_info` on the value returned by the extraction
client. -/
def retHasError : GeminiRet → Bool
  | .parsed e => e.hasError
  | .errDict _ _ => true

/-! ## Request handlers -/

/-- `POST /register` (`register_user`).  `fresh` is the drawn `uuid.uuid4()`,
`now` is `datetime.now()`. -/
def register_user (db : DB) (data : Option RegisterReq) (fresh : String) (now : Nat) :
    Resp × DB :=
  match data with
  | none => (⟨400, .err "No data provided"⟩, db)
  | some d =>
    if ¬ (truthy d.user_name ∧ truthy d.phone ∧ truthyB d.password) then
      (⟨400, .err "user_name, phone, and password are required"⟩, db)
    else
      let un := d.user_name.getD ""
      let ph := d.phone.getD ""
      let pw := d.password.getD []
      match db.users.find? (fun u => u.phone == ph) with
      | some _ => (⟨409, .err "Phone number already registered"⟩, db)
      | none =>
        let em := match d.email with
          | some s => if s = "" then none else some s
          | none => none
        let newUser : User :=
          { user_id := fresh, name := un, email := em, phone := ph,
            password := b64encode pw, account_type := "free", status := "active",
            created_at := now }
        let cats : List Category :=
          [⟨fresh, "Business", 0⟩, ⟨fresh, "Personal", 0⟩,
           ⟨fresh, "Favorites", 0⟩, ⟨fresh, "Important", 0⟩]
        (⟨201, .registerOk fresh un⟩,
         { db with users := db.users ++ [newUser], categories := db.categories ++ cats })

/-- `POST /login` (`login_user`).  Stateless: returns only a response.
The `except` around password verification (500) is reached exactly when the
stored password fails to base64-decode. -/
def login_user (db : DB) (data : Option LoginReq) : Resp :=
  match data with
  | none => ⟨400, .err "No data provided"⟩
  | some d =>
    if ¬ (truthy d.phone ∧ truthyB d.password) then
      ⟨400, .err "phone and password are required"⟩
    else
      let ph := d.phone.getD ""
      let pw := d.password.getD []
      match db.users.find? (fun u => u.phone == ph) with
      | none => ⟨401, .err "Invalid phone number or password"⟩
      | some u =>
        if u.status ≠ "active" then ⟨401, .err "Account is not active"⟩
        else
          match b64decode u.password with
          | none => ⟨500, .err "Password verification failed"⟩
          | some dec =>
            if pw ≠ dec then ⟨401, .err "Invalid phone number or password"⟩
            else ⟨200, .loginOk u.user_id u.name⟩

/-- `POST /extract-card` (`extract_business_card`).  `parse` and `outcome`
feed the extraction client; `fresh` is the drawn card UUID, `now` the insert
timestamp.  The PIL decode failure message elides the interpolated
exception text. -/
def extract_business_card (db : DB) (req : ExtractReq)
    (parse : List Char → Option Extraction) (outcome : GeminiOutcome)
    (fresh : String) (now : Nat) : Resp × DB :=
  if ¬ req.hasImage then (⟨400, .err "No image file provided"⟩, db)
  else if ¬ truthy req.user_id then (⟨400, .err "user_id is required"⟩, db)
  else
    let uid := req.user_id.getD ""
    if ¬ isValidUUID uid then (⟨400, .err "Invalid user_id format"⟩, db)
    else if req.filename = "" then (⟨400, .err "No image file selected"⟩, db)
    else if ¬ allowed_file req.filename then
      (⟨400, .err "Invalid file type. Allowed types: png, jpg, jpeg, gif, bmp, webp"⟩, db)
    else if ¬ req.decodeOk then (⟨500, .err "Error processing image"⟩, db)
    else
      match process_image_with_gemini parse outcome with
      | .errDict m r =>
        (⟨500, .extractFail (.errDict m r)⟩, db)
      | .parsed e =>
        if e.hasError then (⟨500, .extractFail (.parsed e)⟩, db)
        else
          match db.users.find? (fun u => u.user_id == uid) with
          | none => (⟨404, .err "User not found"⟩, db)
          | some _ =>
            let card : Card :=
              { card_id := fresh, user_id := uid,
                name := cleanNoneExtract e.name,
                job_title := cleanNoneExtract e.job_title,
                company := cleanNoneExtract e.company,
                phone := cleanNoneExtract e.phone,
                email := cleanNoneExtract e.email,
                website := cleanNoneExtract e.website,
                address := cleanNoneExtract e.address,
                linkedin := cleanNoneExtract (smLinkedin e),
                twitter := cleanNoneExtract (smTwitter e),
                facebook := cleanNoneExtract (smFacebook e),
                instagram := cleanNoneExtract (smInstagram e),
                additional_info := cleanNoneExtract e.additional_info,
                tags := Val.arr [], card_type := "business", status := some 0,
                created_at := now, updated_at := none }
            (⟨201, .extractOk fresh uid e⟩, { db with cards := db.cards ++ [card] })

/-- `GET /cards/<user_id>` (`get_user_cards`).  Stateless. -/
def get_user_cards (db : DB) (uid : String) : Resp :=
  if ¬ isValidUUID uid then ⟨400, .err "Invalid user_id format"⟩
  else
    match db.users.find? (fun u => u.user_id == uid) with
    | none => ⟨404, .err "User not found"⟩
    | some _ =>
      let rows :=
        db.cards.filter (fun c => c.user_id == uid && (c.status == some 0 || c.status == none))
      let L := (rows.insertionSort createdDesc).map toCardOut
      ⟨200, .cardsOk uid L L.length⟩

/-- `PUT /update_card_details` (`update_card_details`).  The
`set(updates.keys()) - allowed_fields` emptiness test is rendered as
`upds.all (allowedFields.contains ·.1)`.  The `rowcount == 0` branch
returns before `conn.commit()`, so its state is the unchanged input state. -/
def update_card_details (db : DB) (data : Option UpdateReq) (now : Nat) : Resp × DB :=
  match data with
  | none => (⟨400, .err "No data provided"⟩, db)
  | some d =>
    if ¬ truthy d.user_id then (⟨400, .err "user_id is required"⟩, db)
    else if ¬ truthy d.card_id then (⟨400, .err "card_id is required"⟩, db)
    else
      let uid := d.user_id.getD ""
      let cid := d.card_id.getD ""
      match d.updates with
      | none => (⟨400, .err "updates object is required and must be a dictionary"⟩, db)
      | some upds =>
        if upds = [] then
          (⟨400, .err "updates object is required and must be a dictionary"⟩, db)
        else if ¬ (isValidUUID uid ∧ isValidUUID cid) then
          (⟨400, .err "Invalid user_id or card_id format"⟩, db)
        else if ¬ upds.all (fun kv => allowedFields.contains kv.1) then
          (⟨400, .errInvalidFields⟩, db)
        else
          match db.users.find? (fun u => u.user_id == uid) with
          | none => (⟨404, .err "User not found"⟩, db)
          | some _ =>
            match db.cards.find? (fun c => c.card_id == cid && c.user_id == uid) with
            | none => (⟨404, .err "Card not found or does not belong to user"⟩, db)
            | some _ =>
              if db.cards.countP (fun c => c.card_id == cid && c.user_id == uid) = 0 then
                (⟨400, .err "No changes made to the card"⟩, db)
              else
                let newCards := db.cards.map (fun c =>
                  if c.card_id == cid && c.user_id == uid then applyUpdates c upds now else c)
                let db' := { db with cards := newCards }
                match newCards.find? (fun c => c.card_id == cid && c.user_id == uid) with
                | some c' => (⟨200, .updateOk (upds.map Prod.fst) c'⟩, db')
                | none => (⟨500, .err "Failed to retrieve updated card"⟩, db')

/-- `POST /delete_card` (`delete_card`).  The `rowcount == 0` branch (500)
returns before `conn.commit()`, so its state is the unchanged input state;
a NULL `status` compares unequal to `1` and is therefore deletable. -/
def delete_card (db : DB) (data : Option DeleteReq) (now : Nat) : Resp × DB :=
  match data with
  | none => (⟨400, .err "No data provided"⟩, db)
  | some d =>
    if ¬ truthy d.card_id then (⟨400, .err "card_id is required"⟩, db)
    else
      let cid := d.card_id.getD ""
      if ¬ isValidUUID cid then (⟨400, .err "Invalid card_id format"⟩, db)
      else
        match db.cards.find? (fun c => c.card_id == cid) with
        | none => (⟨404, .err "Card not found"⟩, db)
        | some c =>
          if c.status = some 1 then (⟨400, .err "Card is already inactive"⟩, db)
          else if db.cards.countP (fun x => x.card_id == cid) = 0 then
            (⟨500, .err "Failed to update card status"⟩, db)
          else
            let newCards := db.cards.map (fun x =>
              if x.card_id == cid then { x with status := some 1, updated_at := some now } else x)
            (⟨200, .deleteOk cid⟩, { db with cards := newCards })

/-! ## Concrete fixtures used by the witnesses -/

def uuidA : String := "00000000-0000-0000-0000-000000000000"

def uuidB : String := "11111111-1111-1111-1111-111111111111"

def uuidC : String := "22222222-2222-2222-2222-222222222222"

/-- A registered user: `status` is `active` and the stored password is the
base64 encoding of the UTF-8 bytes of `"abc"`, as `register_user` stores it. -/
def egUserA : User :=
  { user_id := uuidA, name := "Alice", email := none, phone := "5551234567",
    password := b64encode [97, 98, 99], account_type := "free", status := "active",
    created_at := 1 }

/-- An extraction result mixing sentinel and genuine values. -/
def egExtraction : Extraction :=
  { name := Val.str "None", job_title := Val.str "Engineer", company := Val.str "",
    phone := Val.null, email := Val.str "a@b.c", website := Val.null, address := Val.null,
    social_media := some
      { linkedin := Val.str "None", twitter := Val.null,
        facebook := Val.str "fb", instagram := Val.null },
    additional_info := Val.null, hasError := false }

def egDB : DB := { users := [egUserA], cards := [], categories := [] }

/-- An active card owned by `uuidA`. -/
def egCard : Card :=
  { card_id := uuidB, user_id := uuidA, name := Val.str "Bob", job_title := Val.null,
    company := Val.null, phone := Val.null, email := Val.null, website := Val.null,
    address := Val.null, linkedin := Val.null, twitter := Val.null, facebook := Val.null,
    instagram := Val.null, additional_info := Val.null, tags := Val.arr [],
    card_type := "business", status := some 0, created_at := 3, updated_at := none }

/-- A second card owned by `uuidA` with NULL status, created earlier. -/
def egCardNull : Card :=
  { card_id := uuidC, user_id := uuidA, name := Val.null, job_title := Val.null,
    company := Val.null, phone := Val.null, email := Val.null, website := Val.null,
    address := Val.null, linkedin := Val.null, twitter := Val.null, facebook := Val.null,
    instagram := Val.null, additional_info := Val.null, tags := Val.null,
    card_type := "business", status := none, created_at := 2, updated_at := none }

def egDB2 : DB := { users := [egUserA], cards := [egCard, egCardNull], categories := [] }

/-! ## Helper lemmas -/

/-- A `WHERE`-guarded `UPDATE` whose assignments do not touch the columns of
the `WHERE` predicate maps `fetchone` of the old table to `fetchone` of the
new one. -/
theorem find?_map_guard {α : Type} (p : α → Bool) (f : α → α)
    (hf : ∀ c, p (f c) = p c) :
    ∀ l : List α, (l.map (fun c => if p c then f c else c)).find? p = (l.find? p).map f
  | [] => rfl
  | c :: l => by
    by_cases h : p c = true
    · simp [List.find?_cons, h, hf]
    · simp only [List.map_cons, if_neg h, List.find?_cons_of_neg _ h]
      exact find?_map_guard p f hf l

theorem setField_card_id (c : Card) (k : String) (v : Val) :
    (setField c k v).card_id = c.card_id := by
  simp [setField, apply_ite Card.card_id]

theorem setField_user_id (c : Card) (k : String) (v : Val) :
    (setField c k v).user_id = c.user_id := by
  simp [setField, apply_ite Card.user_id]

theorem setField_status (c : Card) (k : String) (v : Val) :
    (setField c k v).status = c.status := by
  simp [setField, apply_ite Card.status]

/-- Keys outside the allow-list hit the dead catch-all branch of `setField`. -/
theorem setField_not_allowed (c : Card) (k : String) (v : Val)
    (h : k ∉ allowedFields) : setField c k v = c := by
  simp only [allowedFields, List.mem_cons, List.not_mem_nil, or_false, not_or] at h
  obtain ⟨h1, h2, h3, h4, h5, h6, h7, h8, h9, h10, h11, h12, h13⟩ := h
  simp [setField, h1, h2, h3, h4, h5, h6, h7, h8, h9, h10, h11, h12, h13]

/-- The folded assignment list of the dynamic UPDATE leaves `card_id`,
`user_id` and `status` untouched. -/
theorem foldl_setField_ids (upds : List (String × Val)) :
    ∀ c : Card,
      (upds.foldl (fun acc kv => setField acc kv.1 (cleanNoneUpdate kv.2)) c).card_id
          = c.card_id ∧
      (upds.foldl (fun acc kv => setField acc kv.1 (cleanNoneUpdate kv.2)) c).user_id
          = c.user_id ∧
      (upds.foldl (fun acc kv => setField acc kv.1 (cleanNoneUpdate kv.2)) c).status
          = c.status := by
  induction upds with
  | nil => intro c; exact ⟨rfl, rfl, rfl⟩
  | cons kv rest ih =>
    intro c
    have h := ih (setField c kv.1 (cleanNoneUpdate kv.2))
    simp only [List.foldl_cons]
    exact ⟨h.1.trans (setField_card_id ..), (h.2.1).trans (setField_user_id ..),
      (h.2.2).trans (setField_status ..)⟩

theorem applyUpdates_card_id (c : Card) (upds : List (String × Val)) (now : Nat) :
    (applyUpdates c upds now).card_id = c.card_id :=
  (foldl_setField_ids upds c).1

theorem applyUpdates_user_id (c : Card) (upds : List (String × Val)) (now : Nat) :
    (applyUpdates c upds now).user_id = c.user_id :=
  (foldl_setField_ids upds c).2.1

theorem applyUpdates_status (c : Card) (upds : List (String × Val)) (now : Nat) :
    (applyUpdates c upds now).status = c.status :=
  (foldl_setField_ids upds c).2.2

theorem getField_updated_at (c : Card) (t : Option Nat) (k : String) :
    getField { c with updated_at := t } k = getField c k := by
  simp [getField]

/-- Writing an allow-listed column and reading it back gives the value. -/
theorem getField_setField_same (c : Card) (k : String) (v : Val)
    (hk : k ∈ allowedFields) : getField (setField c k v) k = v := by
  simp only [allowedFields, List.mem_cons, List.not_mem_nil, or_false] at hk
  rcases hk with h | h | h | h | h | h | h | h | h | h | h | h | h <;>
    subst h <;> simp [setField, getField]

/-- Writing one column does not change any differently named column. -/
theorem getField_setField_ne (c : Card) (k k' : String) (v : Val)
    (hne : k ≠ k') : getField (setField c k' v) k = getField c k := by
  by_cases hall : k' ∈ allowedFields
  · simp only [allowedFields, List.mem_cons, List.not_mem_nil, or_false] at hall
    rcases hall with h | h | h | h | h | h | h | h | h | h | h | h | h <;>
      subst h <;> simp [setField, getField, hne]
  · rw [setField_not_allowed _ _ _ hall]

/-- Assignments whose keys avoid `k` leave column `k` unchanged. -/
theorem getField_foldl_notmem (k : String) (upds : List (String × Val)) :
    ∀ c : Card, k ∉ upds.map Prod.fst →
      getField (upds.foldl (fun acc kv => setField acc kv.1 (cleanNoneUpdate kv.2)) c) k
        = getField c k := by
  induction upds with
  | nil => intro c _; rfl
  | cons kv rest ih =>
    intro c hk
    simp only [List.map_cons, List.mem_cons, not_or] at hk
    simp only [List.foldl_cons]
    rw [ih _ hk.2, getField_setField_ne _ _ _ _ hk.1]

/-- Auxiliary recursion for `getField_applyUpdates`. -/
theorem getField_foldl_mem (k : String) (v : Val) (hk : k ∈ allowedFields) :
    ∀ (upds : List (String × Val)) (c : Card), (k, v) ∈ upds →
      (upds.map Prod.fst).Nodup →
      getField (upds.foldl (fun acc kv => setField acc kv.1 (cleanNoneUpdate kv.2)) c) k
        = cleanNoneUpdate v
  | [], _, hmem, _ => absurd hmem (List.not_mem_nil _)
  | kv :: rest, c, hmem, hnodup => by
    simp only [List.map_cons, List.nodup_cons] at hnodup
    simp only [List.foldl_cons]
    rcases List.mem_cons.1 hmem with h | h
    · have h1 : kv.1 = k := by rw [← h]
      have h2 : kv.2 = v := by rw [← h]
      rw [getField_foldl_notmem _ _ _ (h1 ▸ hnodup.1), h1, h2,
        getField_setField_same _ _ _ hk]
    · exact getField_foldl_mem k v hk rest _ h hnodup.2

/-- The value stored in column `k` by the dynamic UPDATE is
`clean_none_values` of the supplied value, provided the keys are distinct
(Python dictionaries cannot repeat a key) and `k` is allow-listed. -/
theorem getField_applyUpdates (c : Card) (upds : List (String × Val)) (now : Nat)
    (k : String) (v : Val) (hk : k ∈ allowedFields) (hmem : (k, v) ∈ upds)
    (hnodup : (upds.map Prod.fst).Nodup) :
    getField (applyUpdates c upds now) k = cleanNoneUpdate v := by
  unfold applyUpdates
  rw [getField_updated_at]
  exact getField_foldl_mem k v hk upds c hmem hnodup

theorem startsWithL_self_append : ∀ (p x : List Char), startsWithL p (p ++ x) = true
  | [], _ => rfl
  | c :: ps, x => by simp [startsWithL, startsWithL_self_append ps x]

theorem startsWithL_append_left : ∀ (p q x : List Char),
    startsWithL (p ++ q) (p ++ x) = startsWithL q x
  | [], _, _ => rfl
  | _ :: ps, q, x => by simp [startsWithL, startsWithL_append_left ps q x]

theorem dropWhile_eq_self_of_head (p : Char → Bool) (l : List Char)
    (h : ∀ c, l.head? = some c → p c = false) : l.dropWhile p = l := by
  cases l with
  | nil => rfl
  | cons c rest => rw [List.dropWhile_cons, if_neg]; simp [h c rfl]

/-- `str.strip()` is the identity when neither end is whitespace. -/
theorem pstrip_eq_self (l : List Char)
    (h1 : ∀ c, l.head? = some c → pyIsSpace c = false)
    (h2 : ∀ c, l.getLast? = some c → pyIsSpace c = false) : pstrip l = l := by
  unfold pstrip stripEnds
  rw [dropWhile_eq_self_of_head _ _ h1, dropWhile_eq_self_of_head, List.reverse_reverse]
  intro c hc
  rw [List.head?_reverse] at hc
  exact h2 c hc

/-- A reply wrapped in a ` ```json ... ``` ` fence is reduced to its stripped
interior. -/
theorem stripFence_json_fence (mid : List Char) :
    stripFence (("```json").data ++ mid ++ ("```").data) = pstrip mid := by
  have hself : pstrip ((("```json").data ++ mid) ++ ("```").data)
      = (("```json").data ++ mid) ++ ("```").data := by
    apply pstrip_eq_self
    · intro c hc
      rw [show ((("```json").data ++ mid) ++ ("```").data).head? = some (Char.ofNat 96)
        from rfl] at hc
      cases hc
      rfl
    · intro c hc
      rw [List.getLast?_append,
        show (("```").data).getLast? = some (Char.ofNat 96) from rfl] at hc
      have hc2 : some (Char.ofNat 96) = some c := hc
      cases hc2
      rfl
  have hsw : startsWithL ("```json").data ((("```json").data ++ mid) ++ ("```").data)
      = true := by
    rw [List.append_assoc]
    exact startsWithL_self_append _ _
  have hdrop : ((("```json").data ++ mid) ++ ("```").data).drop 7
      = mid ++ ("```").data := by
    rw [List.append_assoc, show (7 : Nat) = (("```json").data).length from rfl]
    exact List.drop_left _ _
  have hlen : ((("```json").data ++ mid) ++ ("```").data).length - 3 - 7
      = mid.length := by
    simp only [List.length_append, show (("```json").data).length = 7 from rfl,
      show (("```").data).length = 3 from rfl]
    omega
  simp only [stripFence, hself, hsw, if_true]
  rw [hdrop, hlen, List.take_left]

/-- A reply wrapped in a bare ` ``` ... ``` ` fence (whose interior does not
begin with `json`) is reduced to its stripped interior. -/
theorem stripFence_bare_fence (mid : List Char)
    (hjson : startsWithL ("json").data (mid ++ ("```").data) = false) :
    stripFence (("```").data ++ mid ++ ("```").data) = pstrip mid := by
  have hself : pstrip ((("```").data ++ mid) ++ ("```").data)
      = (("```").data ++ mid) ++ ("```").data := by
    apply pstrip_eq_self
    · intro c hc
      rw [show ((("```").data ++ mid) ++ ("```").data).head? = some (Char.ofNat 96)
        from rfl] at hc
      cases hc
      rfl
    · intro c hc
      rw [List.getLast?_append,
        show (("```").data).getLast? = some (Char.ofNat 96) from rfl] at hc
      have hc2 : some (Char.ofNat 96) = some c := hc
      cases hc2
      rfl
  have hsw7 : startsWithL ("```json").data ((("```").data ++ mid) ++ ("```").data)
      = false := by
    rw [List.append_assoc, show ("```json").data = ("```").data ++ ("json").data from rfl,
      startsWithL_append_left]
    exact hjson
  have hsw3 : startsWithL ("```").data ((("```").data ++ mid) ++ ("```").data)
      = true := by
    rw [List.append_assoc]
    exact startsWithL_self_append _ _
  have hdrop : ((("```").data ++ mid) ++ ("```").data).drop 3
      = mid ++ ("```").data := by
    rw [List.append_assoc, show (3 : Nat) = (("```").data).length from rfl]
    exact List.drop_left _ _
  have hlen : ((("```").data ++ mid) ++ ("```").data).length - 3 - 3
      = mid.length := by
    simp only [List.length_append, show (("```").data).length = 3 from rfl]
    omega
  simp only [stripFence, hself, hsw7, hsw3, Bool.false_eq_true, if_false, if_true]
  rw [hdrop, hlen, List.take_left]

/-- **C8**: the extraction client strips a leading ` ```json ` or ` ``` `
code fence (and the trailing ` ``` `) before JSON parsing; if the remaining
text fails to parse it returns the error dictionary
`{"error": "Failed to parse JSON response", "raw_response": <raw text>}`
rather than raising; and on a transport/model exception it returns an error
dictionary with the exception message — so every outcome is either the
parsed mapping or a mapping carrying an `error` key. -/
theorem C8_extraction_client_fence_and_soft_fail
    (parse : List Char → Option Extraction) :
    (∀ mid,
      stripFence (("```json").data ++ mid ++ ("```").data) = pstrip mid) ∧
    (∀ mid, startsWithL ("json").data (mid ++ ("```").data) = false →
      stripFence (("```").data ++ mid ++ ("```").data) = pstrip mid) ∧
    (∀ text e, parse (stripFence text) = some e →
      process_image_with_gemini parse (.ok text) = .parsed e) ∧
    (∀ text, parse (stripFence text) = none →
      process_image_with_gemini parse (.ok text) =
        .errDict "Failed to parse JSON response" (some text)) ∧
    (∀ msg, process_image_with_gemini parse (.fail msg) =
      .errDict ("Error processing image with Gemini: " ++ msg) none) ∧
    (∀ outcome, retHasError (process_image_with_gemini parse outcome) = true ∨
      ∃ e, process_image_with_gemini parse outcome = .parsed e) := by
  refine ⟨stripFence_json_fence, stripFence_bare_fence, ?_, ?_, ?_, ?_⟩
  · intro text e h
    simp [process_image_with_gemini, h]
  · intro text h
    simp [process_image_with_gemini, h]
  · intro msg
    rfl
  · intro outcome
    cases outcome with
    | fail msg => left; rfl
    | ok text =>
      cases h : parse (stripFence text) with
      | none => left; simp [process_image_with_gemini, h, retHasError]
      | some e => right; exact ⟨e, by simp [process_image_with_gemini, h]⟩

/-- Witness for C8: a parser that always fails, applied to the reply `"x"`,
yields the soft-fail dictionary with the raw reply. -/
theorem C8_witness :
    process_image_with_gemini (fun _ => none) (.ok ("x").data) =
      .errDict "Failed to parse JSON response" (some (("x").data)) :=
  (C8_extraction_client_fence_and_soft_fail (fun _ => none)).2.2.2.1 ("x").data rfl

/-- **C3**: every extraction result persisted by the extract-card handler has
each top-level field and each nested social-media field passed through
`clean_none_values`: a value that is exactly the string `"None"` or the empty
string is stored as an absent (`Val.null`) value, and every other value is
stored unchanged. -/
theorem C3_extract_stores_cleaned_fields
    (db : DB) (req : ExtractReq) (parse : List Char → Option Extraction)
    (outcome : GeminiOutcome) (fresh : String) (now : Nat) (e : Extraction) (u : User)
    (himg : req.hasImage = true)
    (huid : truthy req.user_id = true)
    (hvalid : isValidUUID (req.user_id.getD "") = true)
    (hfn : req.filename ≠ "")
    (hext : allowed_file req.filename = true)
    (hdec : req.decodeOk = true)
    (hgem : process_image_with_gemini parse outcome = .parsed e)
    (herr : e.hasError = false)
    (huser : db.users.find? (fun x => x.user_id == req.user_id.getD "") = some u) :
    ∃ c : Card,
      (extract_business_card db req parse outcome fresh now).2.cards = db.cards ++ [c] ∧
      (extract_business_card db req parse outcome fresh now).1.status = 201 ∧
      c.name = cleanNoneExtract e.name ∧
      c.job_title = cleanNoneExtract e.job_title ∧
      c.company = cleanNoneExtract e.company ∧
      c.phone = cleanNoneExtract e.phone ∧
      c.email = cleanNoneExtract e.email ∧
      c.website = cleanNoneExtract e.website ∧
      c.address = cleanNoneExtract e.address ∧
      c.linkedin = cleanNoneExtract (smLinkedin e) ∧
      c.twitter = cleanNoneExtract (smTwitter e) ∧
      c.facebook = cleanNoneExtract (smFacebook e) ∧
      c.instagram = cleanNoneExtract (smInstagram e) ∧
      c.additional_info = cleanNoneExtract e.additional_info ∧
      (∀ v : Val, (v = Val.str "None" ∨ v = Val.str "") → cleanNoneExtract v = Val.null) ∧
      (∀ v : Val, v ≠ Val.str "None" → v ≠ Val.str "" → cleanNoneExtract v = v) := by
  have hns : ∀ v : Val, (v = Val.str "None" ∨ v = Val.str "") → cleanNoneExtract v = Val.null := by
    intro v h
    unfold cleanNoneExtract
    rw [if_pos h]
  have hkeep : ∀ v : Val, v ≠ Val.str "None" → v ≠ Val.str "" → cleanNoneExtract v = v := by
    intro v h1 h2
    unfold cleanNoneExtract
    rw [if_neg]
    simp [h1, h2]
  unfold extract_business_card
  rw [hgem]
  simp [himg, huid, hvalid, hfn, hext, hdec, herr, huser]
  exact ⟨⟨hns _ (Or.inl rfl), hns _ (Or.inr rfl)⟩, hkeep⟩

/-- Witness for C3 at a concrete database, request and extraction result. -/
theorem C3_witness :
    ∃ c : Card,
      (extract_business_card egDB ⟨true, some uuidA, "a.png", true⟩
          (fun _ => some egExtraction) (.ok ("x").data) "c1" 7).2.cards
        = egDB.cards ++ [c] ∧
      (extract_business_card egDB ⟨true, some uuidA, "a.png", true⟩
          (fun _ => some egExtraction) (.ok ("x").data) "c1" 7).1.status = 201 ∧
      c.name = cleanNoneExtract egExtraction.name ∧
      c.job_title = cleanNoneExtract egExtraction.job_title ∧
      c.company = cleanNoneExtract egExtraction.company ∧
      c.phone = cleanNoneExtract egExtraction.phone ∧
      c.email = cleanNoneExtract egExtraction.email ∧
      c.website = cleanNoneExtract egExtraction.website ∧
      c.address = cleanNoneExtract egExtraction.address ∧
      c.linkedin = cleanNoneExtract (smLinkedin egExtraction) ∧
      c.twitter = cleanNoneExtract (smTwitter egExtraction) ∧
      c.facebook = cleanNoneExtract (smFacebook egExtraction) ∧
      c.instagram = cleanNoneExtract (smInstagram egExtraction) ∧
      c.additional_info = cleanNoneExtract egExtraction.additional_info ∧
      (∀ v : Val, (v = Val.str "None" ∨ v = Val.str "") → cleanNoneExtract v = Val.null) ∧
      (∀ v : Val, v ≠ Val.str "None" → v ≠ Val.str "" → cleanNoneExtract v = v) :=
  C3_extract_stores_cleaned_fields egDB ⟨true, some uuidA, "a.png", true⟩
    (fun _ => some egExtraction) (.ok ("x").data) "c1" 7 egExtraction egUserA
    rfl (by decide) (by decide) (by decide) (by decide) rfl (by decide) (by decide) (by decide)

/-- **C2**: an `update_card_details` request whose updates mapping contains a
key outside the allow-list is rejected as a whole: the response status is 400
and the database state — hence every field of every stored card — is
unchanged.  (The allow-list check precedes every write.) -/
theorem C2_update_rejects_disallowed_keys
    (db : DB) (d : UpdateReq) (now : Nat) (upds : List (String × Val))
    (hupd : d.updates = some upds)
    (k : String) (v : Val) (hmem : (k, v) ∈ upds) (hk : k ∉ allowedFields) :
    (update_card_details db (some d) now).1.status = 400 ∧
    (update_card_details db (some d) now).2 = db := by
  have hne : (upds = []) = False := by
    simp only [eq_iff_iff, iff_false]
    rintro rfl
    cases hmem
  have hall : upds.all (fun kv => allowedFields.contains kv.1) = false := by
    rw [List.all_eq_false]
    refine ⟨(k, v), hmem, ?_⟩
    simp [hk]
  unfold update_card_details
  simp only [hupd, hne, hall]
  split_ifs <;> simp_all

/-- Witness for C2: an update carrying the disallowed key `card_id` against a
concrete database is rejected with 400 and the state is unchanged. -/
theorem C2_witness :
    (update_card_details egDB2
        (some ⟨some uuidA, some uuidB, some [("card_id", Val.str "x")]⟩) 9).1.status = 400 ∧
    (update_card_details egDB2
        (some ⟨some uuidA, some uuidB, some [("card_id", Val.str "x")]⟩) 9).2 = egDB2 :=
  C2_update_rejects_disallowed_keys egDB2 ⟨some uuidA, some uuidB,
      some [("card_id", Val.str "x")]⟩ 9 [("card_id", Val.str "x")] rfl
    "card_id" (Val.str "x") (by simp) (by decide)

/-- **C10** (implicit): on the update path the sentinel normalisation also
applies — a successful `update_card_details` stores, for every supplied
allowed field, `clean_none_values` of the supplied value, and
`clean_none_values` maps `null`, `"None"` and `""` to an absent value and is
never the literal string `"None"` or `""` — so a client cannot store those
literals via update. -/
theorem C10_update_normalizes_sentinels
    (db : DB) (d : UpdateReq) (now : Nat) (upds : List (String × Val))
    (h1 : truthy d.user_id = true) (h2 : truthy d.card_id = true)
    (hupd : d.updates = some upds) (hne : upds ≠ [])
    (hv1 : isValidUUID (d.user_id.getD "") = true)
    (hv2 : isValidUUID (d.card_id.getD "") = true)
    (hall : upds.all (fun kv => allowedFields.contains kv.1) = true)
    (hnodup : (upds.map Prod.fst).Nodup)
    (u : User) (hu : db.users.find? (fun x => x.user_id == d.user_id.getD "") = some u)
    (c : Card)
    (hc : db.cards.find?
        (fun x => x.card_id == d.card_id.getD "" && x.user_id == d.user_id.getD "")
      = some c) :
    (update_card_details db (some d) now).1.status = 200 ∧
    (update_card_details db (some d) now).2.cards.find?
        (fun x => x.card_id == d.card_id.getD "" && x.user_id == d.user_id.getD "")
      = some (applyUpdates c upds now) ∧
    (∀ k v, (k, v) ∈ upds → getField (applyUpdates c upds now) k = cleanNoneUpdate v) ∧
    (∀ v : Val, (v = Val.null ∨ v = Val.str "None" ∨ v = Val.str "") →
      cleanNoneUpdate v = Val.null) ∧
    (∀ v : Val, cleanNoneUpdate v ≠ Val.str "None" ∧ cleanNoneUpdate v ≠ Val.str "") := by
  have hcount : (db.cards.countP
      (fun x => x.card_id == d.card_id.getD "" && x.user_id == d.user_id.getD "")) ≠ 0 := by
    intro h0
    rw [List.countP_eq_zero] at h0
    exact absurd (List.find?_some hc) (by simp [h0 c (List.mem_of_find?_eq_some hc)])
  have hne' : (upds = []) = False := by simp [hne]
  have hmg := find?_map_guard
    (fun x : Card => x.card_id == d.card_id.getD "" && x.user_id == d.user_id.getD "")
    (fun x => applyUpdates x upds now)
    (by
      intro x
      simp [applyUpdates_card_id, applyUpdates_user_id])
    db.cards
  have hrun : update_card_details db (some d) now =
      (⟨200, .updateOk (upds.map Prod.fst) (applyUpdates c upds now)⟩,
       { db with cards := db.cards.map (fun x =>
          if x.card_id == d.card_id.getD "" && x.user_id == d.user_id.getD ""
          then applyUpdates x upds now else x) }) := by
    unfold update_card_details
    simp only [hupd, h1, h2, hv1, hv2, hall, hu, hc, hcount, hne', hmg, Option.map_some',
      eq_self_iff_true, and_self, not_true, if_true, if_false]
  refine ⟨by rw [hrun], ?_, ?_, ?_, ?_⟩
  case _ =>
    rw [hrun]
    exact hmg.trans (by rw [hc]; rfl)
  · intro k v hm
    have hk : k ∈ allowedFields := by
      have := List.all_eq_true.1 hall (k, v) hm
      simpa using this
    exact getField_applyUpdates c upds now k v hk hm hnodup
  · intro v hv
    unfold cleanNoneUpdate
    rw [if_pos hv]
  · intro v
    unfold cleanNoneUpdate
    by_cases hv : v = Val.null ∨ v = Val.str "None" ∨ v = Val.str ""
    · rw [if_pos hv]
      exact ⟨by simp, by simp⟩
    · rw [if_neg hv]
      push_neg at hv
      exact ⟨hv.2.1, hv.2.2⟩

/-- Witness for C10: updating `name` to the sentinel `"None"` and `company`
to a genuine value on a concrete database. -/
theorem C10_witness :
    (update_card_details egDB2
        (some ⟨some uuidA, some uuidB,
          some [("name", Val.str "None"), ("company", Val.str "Acme")]⟩) 9).1.status = 200 ∧
    (update_card_details egDB2
        (some ⟨some uuidA, some uuidB,
          some [("name", Val.str "None"), ("company", Val.str "Acme")]⟩) 9).2.cards.find?
        (fun x => x.card_id == (some uuidB).getD "" && x.user_id == (some uuidA).getD "")
      = some (applyUpdates egCard [("name", Val.str "None"), ("company", Val.str "Acme")] 9) ∧
    (∀ k v, (k, v) ∈ [("name", Val.str "None"), ("company", Val.str "Acme")] →
      getField (applyUpdates egCard [("name", Val.str "None"), ("company", Val.str "Acme")] 9) k
        = cleanNoneUpdate v) ∧
    (∀ v : Val, (v = Val.null ∨ v = Val.str "None" ∨ v = Val.str "") →
      cleanNoneUpdate v = Val.null) ∧
    (∀ v : Val, cleanNoneUpdate v ≠ Val.str "None" ∧ cleanNoneUpdate v ≠ Val.str "") :=
  C10_update_normalizes_sentinels egDB2
    ⟨some uuidA, some uuidB, some [("name", Val.str "None"), ("company", Val.str "Acme")]⟩
    9 [("name", Val.str "None"), ("company", Val.str "Acme")]
    (by decide) (by decide) rfl (by decide) (by decide) (by decide) (by decide)
    (by decide) egUserA (by decide) egCard (by decide)

/-- **C4**: for an existing card with status 0 and a well-formed `card_id`,
the first `delete_card` returns 200 and sets that card's status to 1 (also
setting `updated_at`); a second `delete_card` on the same card returns 400
with the already-inactive error and leaves the state unchanged. -/
theorem C4_soft_delete_twice
    (db : DB) (cid : String) (c : Card) (now1 now2 : Nat)
    (hvalid : isValidUUID cid = true)
    (hfind : db.cards.find? (fun x => x.card_id == cid) = some c)
    (hstatus : c.status = some 0) :
    (delete_card db (some ⟨some cid⟩) now1).1 = ⟨200, .deleteOk cid⟩ ∧
    (delete_card db (some ⟨some cid⟩) now1).2.cards
      = db.cards.map (fun x => if x.card_id == cid
          then { x with status := some 1, updated_at := some now1 } else x) ∧
    (delete_card db (some ⟨some cid⟩) now1).2.cards.find? (fun x => x.card_id == cid)
      = some { c with status := some 1, updated_at := some now1 } ∧
    (delete_card (delete_card db (some ⟨some cid⟩) now1).2 (some ⟨some cid⟩) now2).1
      = ⟨400, .err "Card is already inactive"⟩ ∧
    (delete_card (delete_card db (some ⟨some cid⟩) now1).2 (some ⟨some cid⟩) now2).2
      = (delete_card db (some ⟨some cid⟩) now1).2 := by
  have hcid : cid ≠ "" := by rintro rfl; exact absurd hvalid (by decide)
  have ht : truthy (some cid) = true := by simp [truthy, hcid]
  have hcount : (db.cards.countP (fun x => x.card_id == cid) = 0) = False := by
    simp only [eq_iff_iff, iff_false]
    intro h0
    rw [List.countP_eq_zero] at h0
    exact absurd (List.find?_some hfind)
      (by simp [h0 c (List.mem_of_find?_eq_some hfind)])
  have hst : (c.status = some 1) = False := by rw [hstatus]; simp
  have hrun1 : delete_card db (some ⟨some cid⟩) now1 =
      (⟨200, .deleteOk cid⟩,
       { db with cards := db.cards.map (fun x => if x.card_id == cid
           then { x with status := some 1, updated_at := some now1 } else x) }) := by
    unfold delete_card
    simp only [ht, Option.getD_some, hvalid, hfind, hst, hcount, not_true, if_true, if_false,
      eq_self_iff_true]
  have hmg := find?_map_guard (fun x : Card => x.card_id == cid)
    (fun x => { x with status := some 1, updated_at := some now1 })
    (fun _ => rfl) db.cards
  have hfind1 : (delete_card db (some ⟨some cid⟩) now1).2.cards.find?
      (fun x => x.card_id == cid)
      = some { c with status := some 1, updated_at := some now1 } := by
    rw [hrun1]
    exact hmg.trans (by rw [hfind]; rfl)
  have hrun2 : ∀ db1 : DB, db1.cards.find? (fun x => x.card_id == cid)
      = some { c with status := some 1, updated_at := some now1 } →
      delete_card db1 (some ⟨some cid⟩) now2
        = (⟨400, .err "Card is already inactive"⟩, db1) := by
    intro db1 hf
    unfold delete_card
    simp only [ht, Option.getD_some, hvalid, hf, if_true, eq_self_iff_true, not_true, if_false]
  exact ⟨by rw [hrun1], by rw [hrun1], hfind1,
    by rw [hrun2 _ hfind1], by rw [hrun2 _ hfind1]⟩

/-- Witness for C4 on a concrete database: deleting the active card `uuidB`
twice. -/
theorem C4_witness :
    (delete_card egDB2 (some ⟨some uuidB⟩) 4).1 = ⟨200, .deleteOk uuidB⟩ ∧
    (delete_card egDB2 (some ⟨some uuidB⟩) 4).2.cards
      = egDB2.cards.map (fun x => if x.card_id == uuidB
          then { x with status := some 1, updated_at := some 4 } else x) ∧
    (delete_card egDB2 (some ⟨some uuidB⟩) 4).2.cards.find? (fun x => x.card_id == uuidB)
      = some { egCard with status := some 1, updated_at := some 4 } ∧
    (delete_card (delete_card egDB2 (some ⟨some uuidB⟩) 4).2 (some ⟨some uuidB⟩) 5).1
      = ⟨400, .err "Card is already inactive"⟩ ∧
    (delete_card (delete_card egDB2 (some ⟨some uuidB⟩) 4).2 (some ⟨some uuidB⟩) 5).2
      = (delete_card egDB2 (some ⟨some uuidB⟩) 4).2 :=
  C4_soft_delete_twice egDB2 uuidB egCard 4 5 (by decide) (by decide) rfl

/-- **C5**: for every database state and user, a successful
`GET /cards/<user_id>` returns 200 with a list that contains no entry with
status 1, contains only entries owned by that user, and is ordered by
`created_at` descending (newest first). -/
theorem C5_cards_listing_filtered_and_sorted (db : DB) (uid : String)
    (hvalid : isValidUUID uid = true)
    (u : User) (hu : db.users.find? (fun x => x.user_id == uid) = some u) :
    ∃ L : List CardOut,
      get_user_cards db uid = ⟨200, .cardsOk uid L L.length⟩ ∧
      (∀ o ∈ L, o.user_id = uid ∧ o.status ≠ 1) ∧
      List.Sorted (fun a b : CardOut => b.created_at ≤ a.created_at) L := by
  unfold get_user_cards
  simp only [hvalid, hu, if_true, eq_self_iff_true, not_true, if_false]
  refine ⟨_, rfl, ?_, ?_⟩
  · intro o ho
    rcases List.mem_map.1 ho with ⟨r, hr, rfl⟩
    have hr' : r ∈ db.cards.filter
        (fun c => c.user_id == uid && (c.status == some 0 || c.status == Option.none)) :=
      (List.perm_insertionSort _ _).subset hr
    rcases List.mem_filter.1 hr' with ⟨_, hp⟩
    simp only [Bool.and_eq_true, Bool.or_eq_true, beq_iff_eq] at hp
    refine ⟨by simp [toCardOut, hp.1], ?_⟩
    rcases hp.2 with h0 | hn
    · simp [toCardOut, h0]
    · simp [toCardOut, hn]
  · have hs := List.sorted_insertionSort createdDesc
      (db.cards.filter
        (fun c => c.user_id == uid && (c.status == some 0 || c.status == Option.none)))
    exact List.Pairwise.map toCardOut (fun a b h => h) hs

/-- Witness for C5 on a concrete database with two active cards. -/
theorem C5_witness :
    isValidUUID uuidA = true ∧
    egDB2.users.find? (fun x => x.user_id == uuidA) = some egUserA ∧
    ∃ L : List CardOut,
      get_user_cards egDB2 uuidA = ⟨200, .cardsOk uuidA L L.length⟩ ∧
      (∀ o ∈ L, o.user_id = uuidA ∧ o.status ≠ 1) ∧
      List.Sorted (fun a b : CardOut => b.created_at ≤ a.created_at) L :=
  ⟨by decide, by decide,
    C5_cards_listing_filtered_and_sorted egDB2 uuidA (by decide) egUserA (by decide)⟩

/-- **C9** (implicit): `get_user_cards` treats a card whose status column is
NULL as active: it appears in the returned list and its reported status is
`0`. -/
theorem C9_null_status_listed_as_active (db : DB) (uid : String) (c : Card)
    (hvalid : isValidUUID uid = true)
    (u : User) (hu : db.users.find? (fun x => x.user_id == uid) = some u)
    (hc : c ∈ db.cards) (hcu : c.user_id = uid) (hcs : c.status = none) :
    ∃ L : List CardOut,
      get_user_cards db uid = ⟨200, .cardsOk uid L L.length⟩ ∧
      ∃ o ∈ L, o.card_id = c.card_id ∧ o.status = 0 := by
  unfold get_user_cards
  simp only [hvalid, hu, if_true, eq_self_iff_true, not_true, if_false]
  refine ⟨_, rfl, toCardOut c, ?_, rfl, by simp [toCardOut, hcs]⟩
  apply List.mem_map_of_mem
  apply (List.perm_insertionSort createdDesc _).symm.subset
  rw [List.mem_filter]
  exact ⟨hc, by simp [hcu, hcs]⟩

/-- Witness for C9: the NULL-status card `uuidC` of the concrete database is
listed with reported status 0. -/
theorem C9_witness :
    egCardNull ∈ egDB2.cards ∧
    ∃ L : List CardOut,
      get_user_cards egDB2 uuidA = ⟨200, .cardsOk uuidA L L.length⟩ ∧
      ∃ o ∈ L, o.card_id = egCardNull.card_id ∧ o.status = 0 :=
  ⟨by decide,
    C9_null_status_listed_as_active egDB2 uuidA egCardNull (by decide) egUserA (by decide)
      (by decide) rfl rfl⟩

/-- For registered users the stored password is the base64 encoding of the
request password and the account status is `active` — the well-formedness
facts the login analysis relies on. -/
theorem register_stores_encoded_active_user (db : DB) (d : RegisterReq)
    (fresh : String) (now : Nat) (un ph : String) (pw : Bytes)
    (hun : d.user_name = some un) (hph : d.phone = some ph) (hpw : d.password = some pw)
    (hun' : un ≠ "") (hph' : ph ≠ "") (hpw' : pw ≠ [])
    (hnew : db.users.find? (fun x => x.phone == ph) = none) :
    (register_user db (some d) fresh now).2.users
      = db.users ++
        [{ user_id := fresh, name := un,
           email := match d.email with
             | some s => if s = "" then none else some s
             | none => none,
           phone := ph, password := b64encode pw, account_type := "free",
           status := "active", created_at := now }] := by
  have h1 : truthy (some un) = true := by simp [truthy, hun']
  have h2 : truthy (some ph) = true := by simp [truthy, hph']
  have h3 : truthyB (some pw) = true := by simp [truthyB, hpw']
  unfold register_user
  simp only [h1, h2, h3, hun, hph, hpw, Option.getD_some, hnew, and_self, not_true, if_false,
    eq_self_iff_true, if_true]

/-- **C6**: a successful register request (201) appends exactly one user row
and exactly four category rows (Business, Personal, Favorites, Important,
each with status 0) for the fresh user id; a register request whose phone is
already present returns 409 and inserts nothing. -/
theorem C6_register_creates_user_and_categories (db : DB) (d : RegisterReq)
    (fresh : String) (now : Nat) (un ph : String) (pw : Bytes)
    (hun : d.user_name = some un) (hph : d.phone = some ph) (hpw : d.password = some pw)
    (hun' : un ≠ "") (hph' : ph ≠ "") (hpw' : pw ≠ [])
    (hfreshU : ∀ x ∈ db.users, x.user_id ≠ fresh)
    (hfreshC : ∀ x ∈ db.categories, x.user_id ≠ fresh) :
    (db.users.find? (fun x => x.phone == ph) = none →
      (register_user db (some d) fresh now).1.status = 201 ∧
      ((register_user db (some d) fresh now).2.users.filter
          (fun x => x.user_id == fresh)).length = 1 ∧
      (register_user db (some d) fresh now).2.categories.filter (fun x => x.user_id == fresh)
        = [⟨fresh, "Business", 0⟩, ⟨fresh, "Personal", 0⟩, ⟨fresh, "Favorites", 0⟩,
           ⟨fresh, "Important", 0⟩]) ∧
    (∀ x, db.users.find? (fun x2 => x2.phone == ph) = some x →
      (register_user db (some d) fresh now).1.status = 409 ∧
      (register_user db (some d) fresh now).2 = db) := by
  have h1 : truthy (some un) = true := by simp [truthy, hun']
  have h2 : truthy (some ph) = true := by simp [truthy, hph']
  have h3 : truthyB (some pw) = true := by simp [truthyB, hpw']
  have hfu : db.users.filter (fun x => x.user_id == fresh) = [] := by
    rw [List.filter_eq_nil_iff]
    intro x hx
    simp [hfreshU x hx]
  have hfc : db.categories.filter (fun x => x.user_id == fresh) = [] := by
    rw [List.filter_eq_nil_iff]
    intro x hx
    simp [hfreshC x hx]
  constructor
  · intro hnew
    have hrun : register_user db (some d) fresh now =
        (⟨201, .registerOk fresh un⟩,
         { db with
            users := db.users ++
              [{ user_id := fresh, name := un,
                 email := match d.email with
                   | some s => if s = "" then none else some s
                   | none => none,
                 phone := ph, password := b64encode pw, account_type := "free",
                 status := "active", created_at := now }],
            categories := db.categories ++
              [⟨fresh, "Business", 0⟩, ⟨fresh, "Personal", 0⟩, ⟨fresh, "Favorites", 0⟩,
               ⟨fresh, "Important", 0⟩] }) := by
      unfold register_user
      simp only [hun, hph, hpw, h1, h2, h3, Option.getD_some, hnew, and_self, not_true,
        if_false, eq_self_iff_true, if_true]
    refine ⟨by rw [hrun], ?_, ?_⟩
    · rw [hrun]
      simp only [List.filter_append, hfu, List.nil_append]
      simp
    · rw [hrun]
      simp only [List.filter_append, hfc, List.nil_append]
      simp
  · intro x hx
    have hrun : register_user db (some d) fresh now =
        (⟨409, .err "Phone number already registered"⟩, db) := by
      unfold register_user
      simp only [hun, hph, hpw, h1, h2, h3, Option.getD_some, hx, and_self, not_true,
        if_false, eq_self_iff_true, if_true]
    exact ⟨by rw [hrun], by rw [hrun]⟩

/-- Witness for C6: registering a fresh phone against the concrete database
and re-registering `egUserA`'s phone. -/
theorem C6_witness :
    (egDB2.users.find? (fun x => x.phone == "5550001111") = none →
      (register_user egDB2 (some ⟨some "Bob", some "5550001111", some [98], none⟩)
          uuidC 6).1.status = 201 ∧
      ((register_user egDB2 (some ⟨some "Bob", some "5550001111", some [98], none⟩)
          uuidC 6).2.users.filter (fun x => x.user_id == uuidC)).length = 1 ∧
      (register_user egDB2 (some ⟨some "Bob", some "5550001111", some [98], none⟩)
          uuidC 6).2.categories.filter (fun x => x.user_id == uuidC)
        = [⟨uuidC, "Business", 0⟩, ⟨uuidC, "Personal", 0⟩, ⟨uuidC, "Favorites", 0⟩,
           ⟨uuidC, "Important", 0⟩]) ∧
    (∀ x, egDB2.users.find? (fun x2 => x2.phone == "5550001111") = some x →
      (register_user egDB2 (some ⟨some "Bob", some "5550001111", some [98], none⟩)
          uuidC 6).1.status = 409 ∧
      (register_user egDB2 (some ⟨some "Bob", some "5550001111", some [98], none⟩)
          uuidC 6).2 = egDB2) :=
  C6_register_creates_user_and_categories egDB2
    ⟨some "Bob", some "5550001111", some [98], none⟩ uuidC 6 "Bob" "5550001111" [98]
    rfl rfl rfl (by decide) (by decide) (by decide) (by decide) (by decide)

/-- **C1**: a login attempt with a non-empty phone and password that is wrong
for the (registered, active) account — or whose phone is not registered at
all — yields status 401 with the very same body
`{"error": "Invalid phone number or password"}` in both situations, so the
response does not reveal whether the phone exists.  The well-formedness
hypotheses on the stored user (`status = "active"`, password stored as
`b64encode` of the original bytes) hold for every user `register_user`
creates (`register_stores_encoded_active_user`). -/
theorem C1_login_wrong_password_indistinguishable
    (db1 db2 : DB) (phone : String) (pw : Bytes)
    (hph : phone ≠ "") (hpw : pw ≠ [])
    (h1 : ∀ x ∈ db1.users, x.phone ≠ phone)
    (u : User) (h2 : db2.users.find? (fun x => x.phone == phone) = some u)
    (hact : u.status = "active")
    (orig : Bytes) (horig : ∀ b ∈ orig, b < 256)
    (hstored : u.password = b64encode orig)
    (hwrong : pw ≠ orig) :
    login_user db1 (some ⟨some phone, some pw⟩)
      = ⟨401, .err "Invalid phone number or password"⟩ ∧
    login_user db2 (some ⟨some phone, some pw⟩)
      = ⟨401, .err "Invalid phone number or password"⟩ ∧
    login_user db1 (some ⟨some phone, some pw⟩)
      = login_user db2 (some ⟨some phone, some pw⟩) := by
  have ht1 : truthy (some phone) = true := by simp [truthy, hph]
  have ht2 : truthyB (some pw) = true := by simp [truthyB, hpw]
  have hfind1 : db1.users.find? (fun x => x.phone == phone) = none := by
    rw [List.find?_eq_none]
    intro x hx
    simp [h1 x hx]
  have hdec : b64decode u.password = some orig := by
    rw [hstored]
    exact b64decode_b64encode orig horig
  have e1 : login_user db1 (some ⟨some phone, some pw⟩)
      = ⟨401, .err "Invalid phone number or password"⟩ := by
    unfold login_user
    simp only [ht1, ht2, Option.getD_some, hfind1, and_self, not_true, if_false]
  have e2 : login_user db2 (some ⟨some phone, some pw⟩)
      = ⟨401, .err "Invalid phone number or password"⟩ := by
    unfold login_user
    simp only [ht1, ht2, Option.getD_some, h2, hact, hdec, and_self, not_true, if_false,
      eq_self_iff_true, not_false_iff, if_true]
    rw [if_neg (fun hne => hne rfl), if_pos hwrong]
  exact ⟨e1, e2, e1.trans e2.symm⟩

/-- Witness for C1: `db1` has no user at all, `db2` holds the registered
active user `egUserA` whose real password bytes are `[97, 98, 99]`; the
attempt uses the wrong password `[120]` and both responses are the same
401 body. -/
theorem C1_witness :
    login_user ⟨[], [], []⟩ (some ⟨some "5551234567", some [120]⟩)
      = ⟨401, .err "Invalid phone number or password"⟩ ∧
    login_user egDB2 (some ⟨some "5551234567", some [120]⟩)
      = ⟨401, .err "Invalid phone number or password"⟩ ∧
    login_user ⟨[], [], []⟩ (some ⟨some "5551234567", some [120]⟩)
      = login_user egDB2 (some ⟨some "5551234567", some [120]⟩) :=
  C1_login_wrong_password_indistinguishable ⟨[], [], []⟩ egDB2 "5551234567" [120]
    (by decide) (by decide) (by decide) egUserA (by decide) rfl
    [97, 98, 99] (by decide) rfl (by decide)

/-- Membership in an append of one freshly inserted status-0 card. -/
theorem mem_append_singleton_status {c x : Card} {l : List Card}
    (hc : c ∈ l ++ [x]) (hx : x.status = some 0) : c ∈ l ∨ c.status = some 0 := by
  rcases List.mem_append.1 hc with h | h
  · exact Or.inl h
  · rcases List.mem_singleton.1 h with rfl
    exact Or.inr hx

/-- Membership in the result of the soft-delete UPDATE. -/
theorem mem_map_soft_deleted {c : Card} {l : List Card} {p : Card → Bool} {n : Nat}
    (hc : c ∈ l.map
      (fun x => if p x then { x with status := some 1, updated_at := some n } else x)) :
    c ∈ l ∨ c.status = some 1 := by
  rcases List.mem_map.1 hc with ⟨x, hx, rfl⟩
  split
  · exact Or.inr rfl
  · exact Or.inl hx

/-- **C7**: the card-status invariant — `extract_business_card` only ever
appends cards with status 0, `delete_card` only ever sets status to 1,
`update_card_details` never changes any card's status (the `status` column is
outside the allow-list and `setField` cannot write it), and `register_user`
does not touch the cards table; hence every card status produced by the
handlers is 0 or 1. -/
theorem C7_card_status_zero_or_one (db : DB) :
    (∀ (req : ExtractReq) (parse : List Char → Option Extraction)
        (outcome : GeminiOutcome) (fresh : String) (now : Nat),
      ∀ c ∈ (extract_business_card db req parse outcome fresh now).2.cards,
        c ∈ db.cards ∨ c.status = some 0) ∧
    (∀ (data : Option UpdateReq) (now : Nat),
      ((update_card_details db data now).2.cards).map Card.status
        = db.cards.map Card.status) ∧
    (∀ (data : Option DeleteReq) (now : Nat),
      ∀ c ∈ (delete_card db data now).2.cards, c ∈ db.cards ∨ c.status = some 1) ∧
    (∀ (data : Option RegisterReq) (fresh : String) (now : Nat),
      (register_user db data fresh now).2.cards = db.cards) := by
  refine ⟨?_, ?_, ?_, ?_⟩
  · intro req parse outcome fresh now c hc
    unfold extract_business_card at hc
    simp only [] at hc
    repeat' split at hc
    all_goals
      first
      | exact Or.inl hc
      | exact mem_append_singleton_status hc rfl
  · intro data now
    unfold update_card_details
    simp only []
    repeat' split
    all_goals
      first
      | rfl
      | (simp only [List.map_map]
         refine List.map_congr_left ?_
         intro x _
         simp only [Function.comp_apply]
         split
         · exact applyUpdates_status ..
         · rfl)
  · intro data now c hc
    unfold delete_card at hc
    simp only [] at hc
    repeat' split at hc
    all_goals
      first
      | exact Or.inl hc
      | exact mem_map_soft_deleted hc
  · intro data fresh now
    unfold register_user
    simp only []
    repeat' split
    all_goals rfl

/-- Witness for C7: the card produced by a concrete delete has status 1, and
a concrete update leaves all statuses unchanged. -/
theorem C7_witness :
    ({ egCard with status := some 1, updated_at := some 4 } ∈ egDB2.cards ∨
      ({ egCard with status := some 1, updated_at := some 4 } : Card).status = some 1) ∧
    ((update_card_details egDB2
        (some ⟨some uuidA, some uuidB, some [("name", Val.null)]⟩) 9).2.cards).map Card.status
      = egDB2.cards.map Card.status :=
  ⟨(C7_card_status_zero_or_one egDB2).2.2.1 (some ⟨some uuidB⟩) 4
      { egCard with status := some 1, updated_at := some 4 } (by decide),
    (C7_card_status_zero_or_one egDB2).2.1
      (some ⟨some uuidA, some uuidB, some [("name", Val.null)]⟩) 9⟩
